import Mathlib

/-! Verification of the capture-website pipeline.

Shallow embedding of the option validation, session lifecycle, navigation
HTTP-status check, script-injection JavaScript toggling, full-page lazy-content
scroll loop, clip/inset geometry resolution, and base64 output encoding of
`src/index.js`, together with theorems settling the specification claims.

JavaScript values are modelled as follows: numbers become `ℚ`, strings become
`String`, optional fields become `Option`, and JavaScript truthiness is made
explicit (`0`, `''`, `undefined`/`null` are falsy; every object is truthy).
-/

namespace CaptureWebsite

/-- A clip rectangle `{x, y, width, height}` (JS numbers modelled as `ℚ`). -/
structure Rect where
  x : ℚ
  y : ℚ
  width : ℚ
  height : ℚ
deriving DecidableEq, Repr

/-- Per-edge inset object `{top?, right?, bottom?, left?}`; absent keys are
`none` (the code reads them with `?? 0`). -/
structure InsetEdges where
  top : Option ℚ := none
  right : Option ℚ := none
  bottom : Option ℚ := none
  left : Option ℚ := none
deriving DecidableEq, Repr

/-- The `inset` option: either a scalar number or a per-edge object. -/
inductive Inset where
  | num (n : ℚ)
  | edges (e : InsetEdges)
deriving DecidableEq, Repr

/-- The slice of the flat options bag that the verified claims mention.
Field defaults mirror the absence of the field in the caller's object (and,
for the fields the core normalizes, the normalized defaults of
`internalCaptureWebsiteCore`: `inputType: 'url'`, `fullPage: false`,
`isJavaScriptEnabled: true`, `throwOnHttpError: false`,
`preloadLazyContent: false`, `_keepAlive: false`). -/
structure Options where
  clip : Option Rect := none
  element : Option String := none
  fullPage : Bool := false
  type : Option String := none
  quality : Option ℚ := none
  inset : Option Inset := none
  isJavaScriptEnabled : Bool := true
  modules : Option (List String) := none
  scripts : Option (List String) := none
  throwOnHttpError : Bool := false
  inputType : String := "url"
  preloadLazyContent : Bool := false
  keepAlive : Bool := false
  hasExternalBrowser : Bool := false
  blockAds : Bool := false
deriving DecidableEq, Repr

/-- JS truthiness of an optional object value: every object is truthy. -/
def jsTruthyRect (v : Option Rect) : Bool :=
  v.isSome

/-- JS truthiness of an optional string: the empty string is falsy. -/
def jsTruthyStr (v : Option String) : Bool :=
  match v with
  | none => false
  | some s => !(s == "")

/-- JS truthiness of an optional number: `0` is falsy. -/
def jsTruthyNum (v : Option ℚ) : Bool :=
  match v with
  | none => false
  | some q => !(q == 0)

/-- JS truthiness of `options.inset`: the number `0` is falsy, every object
(even an all-zero edges object) is truthy. -/
def jsTruthyInset (v : Option Inset) : Bool :=
  match v with
  | none => false
  | some (Inset.num n) => !(n == 0)
  | some (Inset.edges _) => true

/-- JS truthiness of `options.modules?.length` / `options.scripts?.length`:
`undefined` and `0` are falsy. -/
def jsTruthyLen (v : Option (List String)) : Bool :=
  match v with
  | none => false
  | some l => !(l.length == 0)

/-- `validateOptions` from `src/index.js` (lines 20–26): a chain of
`assert(!(...))` calls; the first truthy conjunction throws its message. -/
def validateOptions (o : Options) : Except String Unit :=
  if jsTruthyRect o.clip && jsTruthyStr o.element then
    Except.error "The `clip` and `element` option are mutually exclusive"
  else if jsTruthyRect o.clip && o.fullPage then
    Except.error "The `clip` and `fullPage` option are mutually exclusive"
  else if (o.type == some "pdf") && jsTruthyRect o.clip then
    Except.error "The `clip` option is not supported when type is `pdf`"
  else if (o.type == some "pdf") && jsTruthyStr o.element then
    Except.error "The `element` option is not supported when type is `pdf`"
  else if (o.type == some "pdf") && jsTruthyNum o.quality then
    Except.error "The `quality` option is not supported when type is `pdf`"
  else
    Except.ok ()

/-- The five validation error messages, in source order. -/
def validationMessages : List String :=
  ["The `clip` and `element` option are mutually exclusive",
   "The `clip` and `fullPage` option are mutually exclusive",
   "The `clip` option is not supported when type is `pdf`",
   "The `element` option is not supported when type is `pdf`",
   "The `quality` option is not supported when type is `pdf`"]

/-! ## Session lifecycle (`internalCaptureWebsite`, lines 152-233)

The browser interactions of one call are recorded as an effect trace; the
environment `Env` fixes the outcome of each external operation. -/

/-- One observable browser/network side effect of `internalCaptureWebsite`. -/
inductive Effect where
  | launchBrowser
  | newPage
  | enableAdBlock
  | runPipeline
  | closePage
  | closeBrowser
deriving DecidableEq, Repr

/-- Outcomes of the external operations performed during one call. -/
structure Env where
  launchFails : Bool := false
  newPageFails : Bool := false
  coreResult : Except String (List ℕ) := Except.ok []
  pageCrash : Option String := none
  pageCloseFails : Bool := false
  browserCloseFails : Bool := false
deriving Repr

/-- JS `try { body } finally { fin }`: a throwing `finally` block replaces the
body result, a completing one lets it through. -/
def tryFinally {α : Type} (body : Except String α) (fin : Except String Unit) :
    Except String α :=
  match fin with
  | Except.error e => Except.error e
  | Except.ok _ => body

/-- JS `try { x } catch {}`: the error is swallowed. -/
def catchIgnore (x : Except String Unit) : Except String Unit :=
  match x with
  | Except.error _ => Except.ok ()
  | Except.ok _ => Except.ok ()

/-- Outcome of `page.close()` in the cleanup block. -/
def pageCloseAttempt (env : Env) : Except String Unit :=
  if env.pageCloseFails then Except.error "page close failed" else Except.ok ()

/-- Outcome of `browser.close()` in the cleanup block. -/
def browserCloseAttempt (env : Env) : Except String Unit :=
  if env.browserCloseFails then Except.error "browser close failed" else Except.ok ()

/-- The `finally` block of `internalCaptureWebsite` (lines 216-232) once both
browser and page exist: each close is wrapped in `try ... catch {}`, and the
browser is closed only when `_keepAlive` is not set. -/
def finallyBlock (o : Options) (env : Env) : Except String Unit :=
  match catchIgnore (pageCloseAttempt env) with
  | Except.error e => Except.error e
  | Except.ok _ =>
    if !o.keepAlive then catchIgnore (browserCloseAttempt env) else Except.ok ()

/-- The result of the `try` body: the core pipeline result, overridden by a
page-crash error recorded during capture (lines 208-215). -/
def tryBody (env : Env) : Except String (List ℕ) :=
  match env.coreResult with
  | Except.error e => Except.error e
  | Except.ok buf =>
    match env.pageCrash with
    | some e => Except.error e
    | none => Except.ok buf

/-- `internalCaptureWebsite` (lines 152-233): validate, acquire browser and
page, run the core pipeline, and clean up on every exit path. Returns the
call result together with the trace of external effects, in order. -/
def internalCaptureWebsite (o : Options) (env : Env) :
    Except String (List ℕ) × List Effect :=
  match validateOptions o with
  | Except.error e => (Except.error e, [])
  | Except.ok _ =>
    if !o.hasExternalBrowser && env.launchFails then
      -- `puppeteer.launch` threw: `browser` and `page` are still undefined,
      -- so the `finally` block closes nothing.
      (Except.error "Failed to launch the browser process", [Effect.launchBrowser])
    else
      let acquire := if o.hasExternalBrowser then [] else [Effect.launchBrowser]
      if env.newPageFails then
        -- `browser.newPage` threw: `page` is undefined, the browser is closed
        -- unless `_keepAlive` (close errors swallowed).
        let cleanup := if !o.keepAlive then [Effect.closeBrowser] else []
        (tryFinally (Except.error "Failed to open a new page")
            (if !o.keepAlive then catchIgnore (browserCloseAttempt env) else Except.ok ()),
          acquire ++ [Effect.newPage] ++ cleanup)
      else
        let adEffects := if o.blockAds then [Effect.enableAdBlock] else []
        let cleanup := [Effect.closePage] ++ (if !o.keepAlive then [Effect.closeBrowser] else [])
        (tryFinally (tryBody env) (finallyBlock o env),
          acquire ++ [Effect.newPage] ++ adEffects ++ [Effect.runPipeline] ++ cleanup)

/-! ## Script/module injection and the JavaScript-enabled state (lines 424-446)

The page's JavaScript-enabled flag is set once from the option (line 298) and
touched again only by the temporary re-enable around module/script injection. -/

/-- `needsTemporaryJS` (line 424): JavaScript is disabled but there are
modules or scripts to inject (`options.modules?.length || options.scripts?.length`). -/
def needsTemporaryJS (o : Options) : Bool :=
  !o.isJavaScriptEnabled && (jsTruthyLen o.modules || jsTruthyLen o.scripts)

/-- The injection stage (lines 424-446): given the page's current
JavaScript-enabled state, returns the injection outcome, the state in force
while the script tags are added, and the state after the `finally` block.
`injectFails` selects the failure path of `addScriptTag`. -/
def injectionStage (o : Options) (injectFails : Bool) (js : Bool) :
    Except String Unit × Bool × Bool :=
  let jsDuring := if needsTemporaryJS o then true else js
  let result : Except String Unit :=
    if injectFails then Except.error "Evaluation failed: addScriptTag" else Except.ok ()
  -- finally (lines 442-446): restore by setting the flag back to `false`
  let jsAfter := if needsTemporaryJS o then false else jsDuring
  (result, jsDuring, jsAfter)

/-- The JavaScript-enabled state observed at each pipeline stage, in source
order, starting from the `setJavaScriptEnabled(options.isJavaScriptEnabled)`
call (line 298). No stage other than the injection stage changes the flag;
when injection fails the capture aborts and the later stages never run. -/
def pipelineJsStates (o : Options) (injectFails : Bool) : List (String × Bool) :=
  let js0 := o.isJavaScriptEnabled
  let stagesBefore := [("navigation", js0), ("disableAnimations", js0),
    ("hideRemoveElements", js0), ("clickElement", js0)]
  let inj := injectionStage o injectFails js0
  let jsAfter := inj.2.2
  let stagesAfter :=
    if injectFails then [] else
      [("styles", jsAfter), ("waitForElement", jsAfter), ("beforeScreenshot", jsAfter),
       ("elementClip", jsAfter), ("scrollToElement", jsAfter), ("scrollLoop", jsAfter),
       ("inset", jsAfter), ("output", jsAfter)]
  stagesBefore ++ [("injection", inj.2.1)] ++ stagesAfter

/-! ## Clip / inset geometry resolution (lines 279-281, 355-357, 476-479, 581-619) -/

/-- The screenshot options fields involved in geometry resolution. -/
structure ScreenshotOptions where
  clip : Option Rect := none
  fullPage : Bool := false
deriving DecidableEq, Repr

/-- Per-edge inset amounts resolved from `options.inset` (lines 582-591):
a number is used for every edge, an object is read per key with `?? 0`. -/
structure ResolvedInset where
  top : ℚ
  right : ℚ
  bottom : ℚ
  left : ℚ
deriving DecidableEq, Repr

/-- Resolution of `options.inset` into per-edge amounts. -/
def resolveInsetEdges : Option Inset → ResolvedInset
  | some (Inset.num n) => ⟨n, n, n, n⟩
  | some (Inset.edges e) => ⟨e.top.getD 0, e.right.getD 0, e.bottom.getD 0, e.left.getD 0⟩
  | none => ⟨0, 0, 0, 0⟩

/-- The geometry-relevant pipeline steps of `internalCaptureWebsiteCore`, in
source order: copy `fullPage` into the screenshot options when truthy
(lines 279-281), copy an explicit `clip` (lines 355-357), override both with
the element bounding box when `element` is set (lines 476-479), then apply the
inset block (lines 581-619), which is skipped when `inset` is falsy or the
screenshot options carry `fullPage: true`, and which otherwise shrinks/grows
either the existing clip or the viewport rectangle `{0, 0, innerWidth,
innerHeight}` and rejects a non-positive width or height. -/
def resolveGeometry (o : Options) (elementBox : Rect) (innerWidth innerHeight : ℚ) :
    Except String ScreenshotOptions :=
  let so : ScreenshotOptions := {}
  let so := if o.fullPage then { so with fullPage := o.fullPage } else so
  let so := match o.clip with
    | some c => { so with clip := some c }
    | none => so
  let so := if jsTruthyStr o.element then
      { clip := some elementBox, fullPage := false }
    else so
  if jsTruthyInset o.inset && !so.fullPage then
    let i := resolveInsetEdges o.inset
    let clipOptions := so.clip.getD ⟨0, 0, innerWidth, innerHeight⟩
    let x := clipOptions.x + i.left
    let y := clipOptions.y + i.top
    let width := clipOptions.width - (i.left + i.right)
    let height := clipOptions.height - (i.top + i.bottom)
    if width ≤ 0 ∨ height ≤ 0 then
      Except.error "When using the `clip` option, the width or height of the screenshot cannot be <= 0."
    else
      Except.ok { so with clip := some ⟨x, y, width, height⟩ }
  else
    Except.ok so

/-! ## Full-page / lazy-content scroll loop (lines 490-579)

The loop scrolls one viewport height at a time, re-measures the body after
each step, grows the target height when a measurement exceeds it, and repeats
while `viewportIncrement + viewportHeight <= pageHeight` (line 532). The
sequence of body measurements (`bodyHandle.boundingBox()` after each step,
`null` when the element is not rendered) is modelled as `m : ℕ → Option ℚ`;
`fuel` bounds the number of iterations that are unfolded. -/

/-- The loop state: `viewportIncrement` (scrolled offset) and `pageHeight`
(current target total height). -/
structure ScrollState where
  viewportIncrement : ℚ
  pageHeight : ℚ

/-- The loop guard of line 532: `viewportIncrement + viewportHeight <= pageHeight`. -/
def scrollCondition (vh : ℚ) (s : ScrollState) : Prop :=
  s.viewportIncrement + vh ≤ s.pageHeight

instance instDecScrollCondition (vh : ℚ) (s : ScrollState) :
    Decidable (scrollCondition vh s) :=
  inferInstanceAs (Decidable (s.viewportIncrement + vh ≤ s.pageHeight))

/-- One loop iteration (lines 534-552): scroll by one viewport height and
re-measure; a measurement strictly above the current target grows it. -/
def scrollStep (vh : ℚ) (meas : Option ℚ) (s : ScrollState) : ScrollState :=
  let ph := match meas with
    | some h => if s.pageHeight < h then h else s.pageHeight
    | none => s.pageHeight
  ⟨s.viewportIncrement + vh, ph⟩

/-- The scroll loop (lines 528-553), returning the number of scroll steps
performed and the final state. -/
def scrollLoop (vh : ℚ) (m : ℕ → Option ℚ) : ℕ → ℕ → ScrollState → ℕ × ScrollState
  | 0, k, s => (k, s)
  | fuel + 1, k, s =>
    if scrollCondition vh s then
      scrollLoop vh m fuel (k + 1) (scrollStep vh (m k) s)
    else
      (k, s)

/-- The states at which the loop guard is checked, ending with the state at
which the loop stopped (or at which the fuel ran out). -/
def scrollTrace (vh : ℚ) (m : ℕ → Option ℚ) : ℕ → ℕ → ScrollState → List ScrollState
  | 0, _, s => [s]
  | fuel + 1, k, s =>
    if scrollCondition vh s then
      s :: scrollTrace vh m fuel (k + 1) (scrollStep vh (m k) s)
    else
      [s]

/-- Modelled from the spec: the claim's stopping rule — continue "exactly
until the scrolled offset plus one viewport height would reach or exceed the
(possibly-grown) total height", i.e. loop only while
`viewportIncrement + viewportHeight < pageHeight`. Stated only for comparison
with `scrollLoop`, whose source guard is `<=`. -/
def scrollLoopSpecStop (vh : ℚ) (m : ℕ → Option ℚ) : ℕ → ℕ → ScrollState → ℕ × ScrollState
  | 0, k, s => (k, s)
  | fuel + 1, k, s =>
    if s.viewportIncrement + vh < s.pageHeight then
      scrollLoopSpecStop vh m fuel (k + 1) (scrollStep vh (m k) s)
    else
      (k, s)

/-- Entry into the scroll stage (lines 490-579): the loop runs only when
full-page capture or `preloadLazyContent` asks for it, a `body` element
exists (`body = some _`), its bounding box is non-null, and the body is
taller than the viewport; otherwise the stage is skipped without error.
Returns the number of scroll steps performed. -/
def lazyScrollStage (so : ScreenshotOptions) (o : Options) (body : Option (Option Rect))
    (viewportHeight : ℚ) (m : ℕ → Option ℚ) (fuel : ℕ) : Except String ℕ :=
  if so.fullPage || o.preloadLazyContent then
    match body with
    | none => Except.ok 0
    | some bodyBox =>
      match bodyBox with
      | none => Except.ok 0
      | some b =>
        if viewportHeight < b.height then
          Except.ok (scrollLoop viewportHeight m fuel 0 ⟨0, b.height⟩).1
        else
          Except.ok 0
  else
    Except.ok 0

/-! ## Input classification and the HTTP status check (lines 12, 256-258, 390-400) -/

/-- ASCII lower-casing of one character, for the `i` regex flag. -/
def charLower (c : Char) : Char :=
  if 'A' ≤ c ∧ c ≤ 'Z' then Char.ofNat (c.toNat + 32) else c

/-- `matchesAtStart p s`: the character list `s` starts with the pattern `p`
(an anchored `^...` regex literal). -/
def matchesAtStart : List Char → List Char → Bool
  | [], _ => true
  | _ :: _, [] => false
  | q :: ps, c :: cs => c == q && matchesAtStart ps cs

/-- Case-insensitive variant of `matchesAtStart` (the `/.../i` flag). -/
def matchesAtStartCI : List Char → List Char → Bool
  | [], _ => true
  | _ :: _, [] => false
  | q :: ps, c :: cs => charLower c == charLower q && matchesAtStartCI ps cs

/-- `isUrl` (line 12): `/^(https?|file):\/\/|^data:/` — case-sensitive. -/
def isUrl (s : String) : Bool :=
  matchesAtStart "http://".data s.data || matchesAtStart "https://".data s.data
    || matchesAtStart "file://".data s.data || matchesAtStart "data:".data s.data

/-- The anchored case-insensitive test of line 397: `/^https?:\/\//i`. -/
def isHttpUrl (s : String) : Bool :=
  matchesAtStartCI "http://".data s.data || matchesAtStartCI "https://".data s.data

/-- Modelled from the spec: the external `file-url` package, which converts a
local filesystem path into a `file://...` URL; only the scheme prefix of its
output matters to the claims. -/
def fileUrl (p : String) : String := "file://" ++ p

/-- An HTTP response as seen through puppeteer (`status()`, `statusText()`). -/
structure Response where
  status : ℕ
  statusText : String

/-- Models puppeteer `response.ok()`: status in the 2xx range. -/
def responseOk (r : Response) : Bool :=
  decide (200 ≤ r.status) && decide (r.status ≤ 299)

/-- The navigation HTTP-status check (lines 256-258 and 390-400): resolve the
input (literal HTML and URLs pass through, anything else becomes a file URL),
then fail iff `throwOnHttpError` is set, the input is not literal HTML, a
response object exists, the response is not ok, and the resolved input is an
http(s) URL. The error message is `HTTP <status> <statusText>: <input>`. -/
def navigationHttpCheck (o : Options) (input : String) (response : Option Response) :
    Option String :=
  let isHTMLContent := o.inputType == "html"
  let resolvedInput := if isHTMLContent || isUrl input then input else fileUrl input
  match response with
  | none => none
  | some r =>
    if o.throwOnHttpError && !isHTMLContent && !responseOk r && isHttpUrl resolvedInput then
      some ("HTTP " ++ toString r.status ++ " " ++ r.statusText ++ ": " ++ resolvedInput)
    else
      none

/-! ## Output encoders: buffer and base64 (lines 656-673)

`captureWebsite.buffer` returns the capture bytes as a `Uint8Array`;
`captureWebsite.base64` returns `buffer.toString('base64')`. The byte content
of the capture is a list of naturals below 256; Node's standard base64
alphabet and padding are modelled explicitly. -/

/-- The standard base64 alphabet used by Node's `Buffer.toString('base64')`. -/
def b64alphabet : List Char :=
  "ABCDEFGHIJKLMNOPQRSTUVWXYZabcdefghijklmnopqrstuvwxyz0123456789+/".data

/-- The alphabet character for a 6-bit value. -/
def b64char (n : ℕ) : Char := b64alphabet.getD n '='

/-- The 6-bit value of an alphabet character, `none` for non-alphabet input. -/
def b64index (c : Char) : Option ℕ := b64alphabet.findIdx? (· == c)

/-- Modelled from the spec: Node's `Buffer.toString('base64')` — encode three
bytes into four characters, padding a trailing one- or two-byte group with
`=`. -/
def b64encodeChars : List ℕ → List Char
  | [] => []
  | [a] => [b64char (a / 4), b64char (a % 4 * 16), '=', '=']
  | [a, b] => [b64char (a / 4), b64char (a % 4 * 16 + b / 16), b64char (b % 16 * 4), '=']
  | a :: b :: c :: rest =>
      b64char (a / 4) :: b64char (a % 4 * 16 + b / 16) :: b64char (b % 16 * 4 + c / 64)
        :: b64char (c % 64) :: b64encodeChars rest

/-- Standard (strict) base64 decoding, the inverse direction of the claim's
round trip: four characters yield three bytes, and a padded final group
yields one or two. -/
def b64decodeChars : List Char → Option (List ℕ)
  | [] => some []
  | c1 :: c2 :: c3 :: c4 :: rest =>
    match b64index c1, b64index c2 with
    | some i1, some i2 =>
      if c3 == '=' then
        if c4 = '=' ∧ rest = [] then some [i1 * 4 + i2 / 16] else none
      else
        match b64index c3 with
        | some i3 =>
          if c4 == '=' then
            if rest = [] then some [i1 * 4 + i2 / 16, i2 % 16 * 16 + i3 / 4] else none
          else
            match b64index c4 with
            | some i4 =>
              match b64decodeChars rest with
              | some bytes =>
                  some ((i1 * 4 + i2 / 16) :: (i2 % 16 * 16 + i3 / 4)
                    :: (i3 % 4 * 64 + i4) :: bytes)
              | none => none
            | none => none
        | none => none
    | _, _ => none
  | _ => none

/-- `captureWebsite.buffer` (line 668): `new Uint8Array(screenshot)` — the
raw capture bytes unchanged. -/
def bufferEntry (captureBytes : List ℕ) : List ℕ := captureBytes

/-- `captureWebsite.base64` (lines 670-673): the capture bytes encoded with
`screenshot.toString('base64')`. -/
def base64Entry (captureBytes : List ℕ) : String :=
  String.mk (b64encodeChars captureBytes)

/-! ## Theorems -/

/-- The `finally` block of the session lifecycle never throws: every close
error is swallowed by its surrounding `try ... catch {}`. -/
theorem finallyBlock_ok (o : Options) (env : Env) : finallyBlock o env = Except.ok () := by
  unfold finallyBlock catchIgnore pageCloseAttempt browserCloseAttempt
  cases env.pageCloseFails <;> cases env.browserCloseFails <;> cases o.keepAlive <;> simp

/-- A `finally` block that completes normally lets the body result through. -/
theorem tryFinally_ok {α : Type} (body : Except String α) :
    tryFinally body (Except.ok ()) = body :=
  rfl

/-- Whenever `validateOptions` rejects, `internalCaptureWebsite` errors out
with that message and performs no external effect. -/
theorem validation_error_means_no_effects (o : Options) (env : Env) (msg : String)
    (h : validateOptions o = Except.error msg) :
    internalCaptureWebsite o env = (Except.error msg, []) := by
  unfold internalCaptureWebsite
  rw [h]

/-- C1 counterexample: with `type: 'pdf'` and `quality: 0`, the number `0` is
falsy in JavaScript, so `validateOptions` does not throw and the capture runs
to completion instead of failing with an option-incompatibility error. -/
theorem pdf_quality_zero_accepted :
    validateOptions { type := some "pdf", quality := some 0 } = Except.ok ()
    ∧ (internalCaptureWebsite { type := some "pdf", quality := some 0 } {}).1
        = Except.ok [] :=
  ⟨rfl, rfl⟩

/-- C1 (amended): with `type: 'pdf'`, validation fails with one of the
option-incompatibility messages whenever `clip` is set, `element` is set to a
non-empty selector, or `quality` is set to a nonzero number; the falsy values
`quality: 0` and `element: ''` do not trigger the error. -/
theorem pdf_incompatible_options_rejected (o : Options) (hpdf : o.type = some "pdf")
    (h : jsTruthyRect o.clip = true ∨ jsTruthyStr o.element = true
        ∨ jsTruthyNum o.quality = true) :
    ∃ msg, validateOptions o = Except.error msg ∧ msg ∈ validationMessages := by
  have hpdf' : (o.type == some "pdf") = true := by simp [hpdf]
  rcases h with h | h | h
  · cases he : jsTruthyStr o.element
    · cases hf : o.fullPage
      · refine ⟨"The `clip` option is not supported when type is `pdf`", ?_, ?_⟩
        · simp [validateOptions, h, he, hf, hpdf']
        · simp [validationMessages]
      · refine ⟨"The `clip` and `fullPage` option are mutually exclusive", ?_, ?_⟩
        · simp [validateOptions, h, he, hf]
        · simp [validationMessages]
    · refine ⟨"The `clip` and `element` option are mutually exclusive", ?_, ?_⟩
      · simp [validateOptions, h, he]
      · simp [validationMessages]
  · cases hc : jsTruthyRect o.clip
    · refine ⟨"The `element` option is not supported when type is `pdf`", ?_, ?_⟩
      · simp [validateOptions, h, hc, hpdf']
      · simp [validationMessages]
    · cases he : jsTruthyStr o.element
      · simp [h] at he
      · refine ⟨"The `clip` and `element` option are mutually exclusive", ?_, ?_⟩
        · simp [validateOptions, hc, he]
        · simp [validationMessages]
  · cases hc : jsTruthyRect o.clip
    · cases he : jsTruthyStr o.element
      · refine ⟨"The `quality` option is not supported when type is `pdf`", ?_, ?_⟩
        · simp [validateOptions, h, hc, he, hpdf']
        · simp [validationMessages]
      · refine ⟨"The `element` option is not supported when type is `pdf`", ?_, ?_⟩
        · simp [validateOptions, hc, he, hpdf']
        · simp [validationMessages]
    · cases he : jsTruthyStr o.element
      · cases hf : o.fullPage
        · refine ⟨"The `clip` option is not supported when type is `pdf`", ?_, ?_⟩
          · simp [validateOptions, hc, he, hf, hpdf']
          · simp [validationMessages]
        · refine ⟨"The `clip` and `fullPage` option are mutually exclusive", ?_, ?_⟩
          · simp [validateOptions, hc, he, hf]
          · simp [validationMessages]
      · refine ⟨"The `clip` and `element` option are mutually exclusive", ?_, ?_⟩
        · simp [validateOptions, hc, he]
        · simp [validationMessages]

/-- C1 witness: `type: 'pdf'` with `quality: 0.5` is rejected with one of the
validation messages. -/
theorem pdf_incompatible_options_rejected_witness :
    ∃ msg, validateOptions { type := some "pdf", quality := some 2 }
        = Except.error msg ∧ msg ∈ validationMessages :=
  pdf_incompatible_options_rejected { type := some "pdf", quality := some 2 } rfl
    (Or.inr (Or.inr rfl))

/-- C4: `clip` together with `element`, or `clip` together with `fullPage`,
makes the capture fail with a mutual-exclusivity validation error, and the
effect trace is empty: no browser launch, no page, no network side effect. -/
theorem mutually_exclusive_options_fail_before_browser (o : Options) (env : Env)
    (h : (jsTruthyRect o.clip = true ∧ jsTruthyStr o.element = true)
        ∨ (jsTruthyRect o.clip = true ∧ o.fullPage = true)) :
    (∃ msg, (internalCaptureWebsite o env).1 = Except.error msg
        ∧ msg ∈ validationMessages)
    ∧ (internalCaptureWebsite o env).2 = [] := by
  have hval : ∃ msg, validateOptions o = Except.error msg ∧ msg ∈ validationMessages := by
    rcases h with ⟨h1, h2⟩ | ⟨h1, h2⟩
    · refine ⟨"The `clip` and `element` option are mutually exclusive", ?_, ?_⟩
      · simp [validateOptions, h1, h2]
      · simp [validationMessages]
    · cases he : jsTruthyStr o.element
      · refine ⟨"The `clip` and `fullPage` option are mutually exclusive", ?_, ?_⟩
        · simp [validateOptions, h1, h2, he]
        · simp [validationMessages]
      · refine ⟨"The `clip` and `element` option are mutually exclusive", ?_, ?_⟩
        · simp [validateOptions, h1, he]
        · simp [validationMessages]
  obtain ⟨m, hm, hmem⟩ := hval
  rw [validation_error_means_no_effects o env m hm]
  exact ⟨⟨m, rfl, hmem⟩, rfl⟩

/-- C4 witness: `clip` plus `element` on an otherwise default call. -/
theorem mutually_exclusive_options_fail_before_browser_witness :
    (∃ msg, (internalCaptureWebsite
        { clip := some ⟨0, 0, 10, 10⟩, element := some "main" } {}).1
        = Except.error msg ∧ msg ∈ validationMessages)
    ∧ (internalCaptureWebsite
        { clip := some ⟨0, 0, 10, 10⟩, element := some "main" } {}).2 = [] :=
  mutually_exclusive_options_fail_before_browser
    { clip := some ⟨0, 0, 10, 10⟩, element := some "main" } {} (Or.inl ⟨rfl, rfl⟩)

/-- C6: once a page was opened, the page is closed on every exit path, and the
browser is closed exactly when `_keepAlive` was not supplied — regardless of
whether the core pipeline succeeded, failed, or a page crash was recorded. -/
theorem page_and_browser_closed_on_every_path (o : Options) (env : Env)
    (hval : validateOptions o = Except.ok ())
    (hlaunch : o.hasExternalBrowser = true ∨ env.launchFails = false)
    (hpage : env.newPageFails = false) :
    Effect.closePage ∈ (internalCaptureWebsite o env).2
    ∧ (o.keepAlive = false → Effect.closeBrowser ∈ (internalCaptureWebsite o env).2)
    ∧ (o.keepAlive = true → Effect.closeBrowser ∉ (internalCaptureWebsite o env).2) := by
  have hl : (!o.hasExternalBrowser && env.launchFails) = false := by
    rcases hlaunch with h | h <;> simp [h]
  cases hk : o.keepAlive <;> cases hb : o.hasExternalBrowser <;> cases ha : o.blockAds <;>
    simp_all [internalCaptureWebsite, hval, hl, hpage, hk, hb, ha]

/-- C6 witness: default options, default environment. -/
theorem page_and_browser_closed_on_every_path_witness :
    Effect.closePage ∈ (internalCaptureWebsite {} {}).2
    ∧ ((({} : Options)).keepAlive = false →
        Effect.closeBrowser ∈ (internalCaptureWebsite {} {}).2)
    ∧ ((({} : Options)).keepAlive = true →
        Effect.closeBrowser ∉ (internalCaptureWebsite {} {}).2) :=
  page_and_browser_closed_on_every_path {} {} rfl (Or.inr rfl) rfl

/-- The call result of `internalCaptureWebsite` depends only on validation,
browser/page acquisition, and the pipeline body: the cleanup block never
contributes an error. -/
theorem internalCaptureWebsite_fst (o : Options) (env : Env) :
    (internalCaptureWebsite o env).1 =
      match validateOptions o with
      | Except.error e => Except.error e
      | Except.ok _ =>
        if !o.hasExternalBrowser && env.launchFails then
          Except.error "Failed to launch the browser process"
        else if env.newPageFails then
          Except.error "Failed to open a new page"
        else tryBody env := by
  unfold internalCaptureWebsite
  cases hv : validateOptions o
  · rfl
  · simp only []
    split
    · rfl
    · split
      · cases o.keepAlive <;> cases hbc : env.browserCloseFails <;>
          simp [tryFinally, catchIgnore, browserCloseAttempt, hbc]
      · simp [finallyBlock_ok, tryFinally]

/-- C10: errors thrown by `page.close()` / `browser.close()` during cleanup
are swallowed: the call result is independent of the close-failure flags, a
successful pipeline still returns its buffer, and a failed pipeline still
surfaces the original pipeline error. -/
theorem close_errors_never_mask_result (o : Options) (env : Env) (pc bc : Bool) :
    (internalCaptureWebsite o
        { env with pageCloseFails := pc, browserCloseFails := bc }).1
      = (internalCaptureWebsite o env).1
    ∧ (∀ buf, validateOptions o = Except.ok () → env.launchFails = false →
        env.newPageFails = false → env.coreResult = Except.ok buf →
        env.pageCrash = none →
        (internalCaptureWebsite o
            { env with pageCloseFails := pc, browserCloseFails := bc }).1
          = Except.ok buf)
    ∧ (∀ e, validateOptions o = Except.ok () → env.launchFails = false →
        env.newPageFails = false → env.coreResult = Except.error e →
        (internalCaptureWebsite o
            { env with pageCloseFails := pc, browserCloseFails := bc }).1
          = Except.error e) := by
  refine ⟨?_, ?_, ?_⟩
  · rw [internalCaptureWebsite_fst, internalCaptureWebsite_fst]
    rfl
  · intro buf hval hlf hnp hcore hcrash
    rw [internalCaptureWebsite_fst, hval]
    simp [hlf, hnp, tryBody, hcore, hcrash]
  · intro e hval hlf hnp hcore
    rw [internalCaptureWebsite_fst, hval]
    simp [hlf, hnp, tryBody, hcore]

/-- C5: when JavaScript is disabled and there are modules or scripts to
inject, the flag is enabled exactly for the injection stage and restored to
disabled by the `finally` block on both the success and the failure path of
injection; every other stage observes the caller's `isJavaScriptEnabled`. -/
theorem javascript_restored_after_injection (o : Options) (injectFails : Bool)
    (hjs : o.isJavaScriptEnabled = false)
    (hmod : (jsTruthyLen o.modules || jsTruthyLen o.scripts) = true) :
    (injectionStage o injectFails o.isJavaScriptEnabled).2.1 = true
    ∧ (injectionStage o injectFails o.isJavaScriptEnabled).2.2 = o.isJavaScriptEnabled
    ∧ (∀ p ∈ pipelineJsStates o injectFails, p.1 ≠ "injection" →
        p.2 = o.isJavaScriptEnabled) := by
  have hneed : needsTemporaryJS o = true := by
    simp [needsTemporaryJS, hjs, hmod]
  refine ⟨?_, ?_, ?_⟩
  · simp [injectionStage, hneed]
  · simp [injectionStage, hneed, hjs]
  · intro p hp hne
    cases injectFails
    · simp [pipelineJsStates, injectionStage, hneed] at hp
      rcases hp with rfl | rfl | rfl | rfl | rfl | rfl | rfl | rfl | rfl | rfl | rfl | rfl | rfl <;>
        simp_all
    · simp [pipelineJsStates, injectionStage, hneed] at hp
      rcases hp with rfl | rfl | rfl | rfl | rfl <;> simp_all

/-- C5 witness: one script, JavaScript disabled, on the failure path. -/
theorem javascript_restored_after_injection_witness :
    (injectionStage { isJavaScriptEnabled := false, scripts := some ["x"] } true
        ({ isJavaScriptEnabled := false, scripts := some ["x"] } : Options).isJavaScriptEnabled).2.1 = true
    ∧ (injectionStage { isJavaScriptEnabled := false, scripts := some ["x"] } true
        ({ isJavaScriptEnabled := false, scripts := some ["x"] } : Options).isJavaScriptEnabled).2.2
        = ({ isJavaScriptEnabled := false, scripts := some ["x"] } : Options).isJavaScriptEnabled
    ∧ (∀ p ∈ pipelineJsStates { isJavaScriptEnabled := false, scripts := some ["x"] } true,
        p.1 ≠ "injection" →
        p.2 = ({ isJavaScriptEnabled := false, scripts := some ["x"] } : Options).isJavaScriptEnabled) :=
  javascript_restored_after_injection
    { isJavaScriptEnabled := false, scripts := some ["x"] } true rfl rfl

/-- C3 counterexample: with `fullPage: true` and `element` both set, the
element override clears the full-page flag (line 478), so the inset block
runs and a nonzero inset changes the final clip: the claim that `inset` has
no effect whenever `fullPage` is true fails when `element` is also set. -/
theorem inset_applies_with_fullpage_and_element :
    resolveGeometry { fullPage := true, element := some "div", inset := some (Inset.num 5) }
        ⟨10, 10, 100, 100⟩ 1280 800
      = Except.ok { clip := some ⟨15, 15, 90, 90⟩, fullPage := false }
    ∧ resolveGeometry { fullPage := true, element := some "div" }
        ⟨10, 10, 100, 100⟩ 1280 800
      = Except.ok { clip := some ⟨10, 10, 100, 100⟩, fullPage := false }
    ∧ resolveGeometry { fullPage := true, element := some "div", inset := some (Inset.num 5) }
        ⟨10, 10, 100, 100⟩ 1280 800
      ≠ resolveGeometry { fullPage := true, element := some "div" }
        ⟨10, 10, 100, 100⟩ 1280 800 := by
  have hel : jsTruthyStr (some "div") = true := rfl
  have hi : jsTruthyInset (some (Inset.num 5)) = true := rfl
  have h1 : resolveGeometry
      { fullPage := true, element := some "div", inset := some (Inset.num 5) }
      ⟨10, 10, 100, 100⟩ 1280 800
      = Except.ok { clip := some ⟨15, 15, 90, 90⟩, fullPage := false } := by
    norm_num [resolveGeometry, resolveInsetEdges, hel, hi, Rect.mk.injEq,
      ScreenshotOptions.mk.injEq]
  have h2 : resolveGeometry { fullPage := true, element := some "div" }
      ⟨10, 10, 100, 100⟩ 1280 800
      = Except.ok { clip := some ⟨10, 10, 100, 100⟩, fullPage := false } := by
    norm_num [resolveGeometry, resolveInsetEdges, hel, jsTruthyInset]
  refine ⟨h1, h2, ?_⟩
  rw [h1, h2]
  intro hcontra
  have := Except.ok.inj hcontra
  rw [ScreenshotOptions.mk.injEq, Option.some.injEq, Rect.mk.injEq] at this
  norm_num at this

/-- C3 (amended): when `fullPage` is true and `element` is not set, the inset
block is skipped, so any `inset` value yields the same screenshot geometry as
no inset at all. When `element` is also set, `fullPage` is overridden to
false and the inset does apply to the element clip. -/
theorem inset_ignored_when_fullpage_without_element (o : Options) (box : Rect)
    (iw ih : ℚ) (i : Option Inset)
    (hfp : o.fullPage = true) (hel : jsTruthyStr o.element = false) :
    resolveGeometry { o with inset := i } box iw ih
      = resolveGeometry { o with inset := none } box iw ih := by
  cases hc : o.clip <;> simp [resolveGeometry, hfp, hel, hc]

/-- C3 witness: a scalar inset of 7 with `fullPage: true` and no element. -/
theorem inset_ignored_when_fullpage_without_element_witness :
    resolveGeometry { ({ fullPage := true } : Options) with inset := some (Inset.num 7) }
        ⟨0, 0, 50, 50⟩ 1280 800
      = resolveGeometry { ({ fullPage := true } : Options) with inset := none }
        ⟨0, 0, 50, 50⟩ 1280 800 :=
  inset_ignored_when_fullpage_without_element { fullPage := true } ⟨0, 0, 50, 50⟩
    1280 800 (some (Inset.num 7)) rfl rfl

/-- C10 witness: with both close operations failing, a successful pipeline
still returns its buffer. -/
theorem close_errors_never_mask_result_witness :
    (internalCaptureWebsite {}
        { ({ coreResult := Except.ok [7] } : Env) with
            pageCloseFails := true, browserCloseFails := true }).1
      = (internalCaptureWebsite {} { coreResult := Except.ok [7] }).1
    ∧ (∀ buf, validateOptions {} = Except.ok () →
        ({ coreResult := Except.ok [7] } : Env).launchFails = false →
        ({ coreResult := Except.ok [7] } : Env).newPageFails = false →
        ({ coreResult := Except.ok [7] } : Env).coreResult = Except.ok buf →
        ({ coreResult := Except.ok [7] } : Env).pageCrash = none →
        (internalCaptureWebsite {}
            { ({ coreResult := Except.ok [7] } : Env) with
                pageCloseFails := true, browserCloseFails := true }).1
          = Except.ok buf)
    ∧ (∀ e, validateOptions {} = Except.ok () →
        ({ coreResult := Except.ok [7] } : Env).launchFails = false →
        ({ coreResult := Except.ok [7] } : Env).newPageFails = false →
        ({ coreResult := Except.ok [7] } : Env).coreResult = Except.error e →
        (internalCaptureWebsite {}
            { ({ coreResult := Except.ok [7] } : Env) with
                pageCloseFails := true, browserCloseFails := true }).1
          = Except.error e) :=
  close_errors_never_mask_result {} { coreResult := Except.ok [7] } true true


/-- Unfolding `scrollLoop` one iteration. -/
theorem scrollLoop_succ (vh : ℚ) (m : ℕ → Option ℚ) (fuel k : ℕ) (s : ScrollState) :
    scrollLoop vh m (fuel + 1) k s =
      if scrollCondition vh s then scrollLoop vh m fuel (k + 1) (scrollStep vh (m k) s)
      else (k, s) :=
  rfl

/-- Unfolding `scrollTrace` one iteration. -/
theorem scrollTrace_succ (vh : ℚ) (m : ℕ → Option ℚ) (fuel k : ℕ) (s : ScrollState) :
    scrollTrace vh m (fuel + 1) k s =
      if scrollCondition vh s then s :: scrollTrace vh m fuel (k + 1) (scrollStep vh (m k) s)
      else [s] :=
  rfl

/-- The trace of checked states is never empty. -/
theorem scrollTrace_ne_nil (vh : ℚ) (m : ℕ → Option ℚ) (fuel k : ℕ) (s : ScrollState) :
    scrollTrace vh m fuel k s ≠ [] := by
  cases fuel with
  | zero => simp [scrollTrace]
  | succ n =>
    rw [scrollTrace_succ]
    split <;> simp

/-- A step's resulting target height is the maximum of the old target and the
new measurement (an absent measurement leaves the target unchanged). -/
theorem scrollStep_pageHeight (vh : ℚ) (meas : Option ℚ) (s : ScrollState) :
    (scrollStep vh meas s).pageHeight = max s.pageHeight (meas.getD s.pageHeight) := by
  cases meas with
  | none => simp [scrollStep]
  | some h =>
    rcases lt_or_le s.pageHeight h with hlt | hle
    · simp [scrollStep, if_pos hlt, max_eq_right (le_of_lt hlt)]
    · simp [scrollStep, if_neg (not_lt.mpr hle), max_eq_left hle]

/-- Every state at which the loop performed another step satisfies the
source guard `viewportIncrement + viewportHeight <= pageHeight`. -/
theorem scrollTrace_dropLast_cond (vh : ℚ) (m : ℕ → Option ℚ) :
    ∀ (fuel k : ℕ) (s : ScrollState), ∀ t ∈ (scrollTrace vh m fuel k s).dropLast,
      scrollCondition vh t := by
  intro fuel
  induction fuel with
  | zero => intro k s t ht; simp [scrollTrace] at ht
  | succ n ih =>
    intro k s t ht
    by_cases hc : scrollCondition vh s
    · rw [scrollTrace_succ, if_pos hc] at ht
      rcases htr : scrollTrace vh m n (k + 1) (scrollStep vh (m k) s) with _ | ⟨a, l⟩
      · exact absurd htr (scrollTrace_ne_nil vh m n (k + 1) (scrollStep vh (m k) s))
      · rw [htr, List.dropLast_cons₂] at ht
        rcases List.mem_cons.mp ht with rfl | ht
        · exact hc
        · exact ih (k + 1) (scrollStep vh (m k) s) t (by rw [htr]; exact ht)
    · rw [scrollTrace_succ, if_neg hc] at ht
      simp at ht

/-- With measurements bounded by `B` and enough fuel, the loop reaches a
state where the guard fails. -/
theorem scrollLoop_stops (vh B : ℚ) (m : ℕ → Option ℚ)
    (hm : ∀ j h, m j = some h → h ≤ B) :
    ∀ (fuel k : ℕ) (s : ScrollState), s.pageHeight ≤ B →
      B < s.viewportIncrement + fuel * vh + vh →
      ¬ scrollCondition vh (scrollLoop vh m fuel k s).2 := by
  intro fuel
  induction fuel with
  | zero =>
    intro k s hB hlt hc
    unfold scrollCondition at hc
    simp [scrollLoop] at hc
    push_cast at hlt
    linarith
  | succ n ih =>
    intro k s hB hlt
    by_cases hc : scrollCondition vh s
    · rw [scrollLoop_succ, if_pos hc]
      apply ih (k + 1)
      · rw [scrollStep_pageHeight]
        rcases hmk : m k with _ | h
        · simpa [hmk] using hB
        · simp [hmk]
          exact ⟨hB, hm k h hmk⟩
      · have hinc : (scrollStep vh (m k) s).viewportIncrement
            = s.viewportIncrement + vh := by
          simp [scrollStep]
        rw [hinc]
        push_cast at hlt ⊢
        linarith
    · rw [scrollLoop_succ, if_neg hc]
      exact hc

/-- The last checked state of the trace is the loop's final state. -/
theorem scrollTrace_getLast (vh : ℚ) (m : ℕ → Option ℚ) :
    ∀ (fuel k : ℕ) (s : ScrollState),
      (scrollTrace vh m fuel k s).getLast? = some (scrollLoop vh m fuel k s).2 := by
  intro fuel
  induction fuel with
  | zero => intro k s; rfl
  | succ n ih =>
    intro k s
    by_cases hc : scrollCondition vh s
    · rw [scrollTrace_succ, if_pos hc, scrollLoop_succ, if_pos hc, ← ih (k + 1)]
      rcases htr : scrollTrace vh m n (k + 1) (scrollStep vh (m k) s) with _ | ⟨a, l⟩
      · exact absurd htr (scrollTrace_ne_nil vh m n (k + 1) (scrollStep vh (m k) s))
      · rw [List.getLast?_cons_cons]
    · rw [scrollTrace_succ, if_neg hc, scrollLoop_succ, if_neg hc]
      rfl

/-- C2 counterexample: viewport height 800, initial body height 1600, no
growth. After one step the scrolled offset plus one viewport height already
reaches the total height (800 + 800 ≥ 1600), the point at which the claim
says the loop stops; but the source guard is `<=`, so the code performs a
second scroll step: 2 steps where the claim's stopping rule predicts 1. -/
theorem scroll_loop_continues_at_exact_fit :
    (scrollLoop 800 (fun _ => none) 3 0 ⟨0, 1600⟩).1 = 2
    ∧ (scrollLoopSpecStop 800 (fun _ => none) 3 0 ⟨0, 1600⟩).1 = 1
    ∧ scrollCondition 800 ⟨800, 1600⟩
    ∧ (800 : ℚ) + 800 ≥ 1600 := by
  refine ⟨?_, ?_, ?_, by norm_num⟩
  · norm_num [scrollLoop, scrollStep, scrollCondition]
  · norm_num [scrollLoopSpecStop, scrollStep]
  · norm_num [scrollCondition]

/-- C2 (amended): after each scroll step the body height is re-measured and
the target total height is grown when the new measurement exceeds it; the
loop performs another scroll step exactly while the scrolled offset plus one
viewport height is less than or equal to the (possibly-grown) total height,
and — for a positive viewport height and bounded measurements — it stops
exactly when the offset plus one viewport height strictly exceeds the total
height (at equality the code still performs a step). -/
theorem scroll_loop_grows_and_stops_on_strict_overflow (vh H : ℚ) (hvh : 0 < vh)
    (m : ℕ → Option ℚ) (hm : ∀ j h, m j = some h → h ≤ H) (s₀ : ScrollState) :
    (∀ meas s, (scrollStep vh meas s).pageHeight = max s.pageHeight (meas.getD s.pageHeight))
    ∧ (∀ fuel k s, ∀ t ∈ (scrollTrace vh m fuel k s).dropLast, scrollCondition vh t)
    ∧ ∃ fuel, ¬ scrollCondition vh (scrollLoop vh m fuel 0 s₀).2
        ∧ (scrollTrace vh m fuel 0 s₀).getLast? = some (scrollLoop vh m fuel 0 s₀).2 := by
  refine ⟨scrollStep_pageHeight vh, scrollTrace_dropLast_cond vh m, ?_⟩
  set B := max s₀.pageHeight H with hB
  obtain ⟨n, hn⟩ := exists_nat_gt ((B - s₀.viewportIncrement - vh) / vh)
  have hn' : B < s₀.viewportIncrement + n * vh + vh := by
    rw [div_lt_iff₀ hvh] at hn
    linarith
  refine ⟨n, ?_, scrollTrace_getLast vh m n 0 s₀⟩
  exact scrollLoop_stops vh B m
    (fun j h hj => le_trans (hm j h hj) (le_max_right _ _))
    n 0 s₀ (le_max_left _ _) hn'

/-- C2 witness: viewport 800, measurements all `null`, bound 1600, start
state at offset 0 with body height 1600. -/
theorem scroll_loop_grows_and_stops_on_strict_overflow_witness :
    (∀ meas s, (scrollStep 800 meas s).pageHeight
        = max s.pageHeight (meas.getD s.pageHeight))
    ∧ (∀ fuel k s, ∀ t ∈ (scrollTrace 800 (fun _ => none) fuel k s).dropLast,
        scrollCondition 800 t)
    ∧ ∃ fuel, ¬ scrollCondition 800 (scrollLoop 800 (fun _ => none) fuel 0 ⟨0, 1600⟩).2
        ∧ (scrollTrace 800 (fun _ => none) fuel 0 ⟨0, 1600⟩).getLast?
            = some (scrollLoop 800 (fun _ => none) fuel 0 ⟨0, 1600⟩).2 :=
  scroll_loop_grows_and_stops_on_strict_overflow 800 1600 (by norm_num)
    (fun _ => none) (fun j h hj => by simp at hj) ⟨0, 1600⟩

/-- C9: the scroll stage is skipped without error — zero scroll steps, a
normal result — whenever the document has no body element, the body's
bounding box is null, or the body is not taller than the viewport, even with
`fullPage` or `preloadLazyContent` requesting the stage. -/
theorem scroll_stage_skipped_safely (so : ScreenshotOptions) (o : Options)
    (body : Option (Option Rect)) (vh : ℚ) (m : ℕ → Option ℚ) (fuel : ℕ)
    (h : body = none ∨ body = some none
        ∨ ∃ b, body = some (some b) ∧ b.height ≤ vh) :
    lazyScrollStage so o body vh m fuel = Except.ok 0 := by
  rcases h with rfl | rfl | ⟨b, rfl, hb⟩
  · simp [lazyScrollStage]
  · simp [lazyScrollStage]
  · simp [lazyScrollStage, not_lt.mpr hb]

/-- C9 witness: full-page capture of a document whose body box is 600 tall
under an 800-tall viewport. -/
theorem scroll_stage_skipped_safely_witness :
    lazyScrollStage { fullPage := true } {} (some (some ⟨0, 0, 100, 600⟩)) 800
      (fun _ => none) 5 = Except.ok 0 :=
  scroll_stage_skipped_safely { fullPage := true } {} (some (some ⟨0, 0, 100, 600⟩))
    800 (fun _ => none) 5
    (Or.inr (Or.inr ⟨⟨0, 0, 100, 600⟩, rfl, by norm_num⟩))

/-- A pattern matches at the start of itself followed by anything. -/
theorem matchesAtStart_append (p l : List Char) : matchesAtStart p (p ++ l) = true := by
  induction p with
  | nil => rfl
  | cons c cs ih => simp [matchesAtStart, ih]

/-- A case-sensitive anchored match implies the case-insensitive one. -/
theorem matchesAtStartCI_of_matchesAtStart (p : List Char) :
    ∀ s : List Char, matchesAtStart p s = true → matchesAtStartCI p s = true := by
  induction p with
  | nil => intro s _; rfl
  | cons c cs ih =>
    intro s h
    cases s with
    | nil => simp [matchesAtStart] at h
    | cons a as =>
      simp [matchesAtStart] at h
      obtain ⟨rfl, h2⟩ := h
      simp [matchesAtStartCI]
      exact ih as h2

/-- `http://...` inputs are URLs. -/
theorem isUrl_http (rest : String) : isUrl ("http://" ++ rest) = true := rfl

/-- `https://...` inputs are URLs. -/
theorem isUrl_https (rest : String) : isUrl ("https://" ++ rest) = true := rfl

/-- `file://...` inputs are URLs. -/
theorem isUrl_file (rest : String) : isUrl ("file://" ++ rest) = true := rfl

/-- `data:...` inputs are URLs. -/
theorem isUrl_data (rest : String) : isUrl ("data:" ++ rest) = true := rfl

/-- `http://...` matches the status-check regex. -/
theorem isHttpUrl_http (rest : String) : isHttpUrl ("http://" ++ rest) = true := rfl

/-- `https://...` matches the status-check regex. -/
theorem isHttpUrl_https (rest : String) : isHttpUrl ("https://" ++ rest) = true := rfl

/-- `file://...` does not match the status-check regex. -/
theorem isHttpUrl_file (rest : String) : isHttpUrl ("file://" ++ rest) = false := rfl

/-- `data:...` does not match the status-check regex. -/
theorem isHttpUrl_data (rest : String) : isHttpUrl ("data:" ++ rest) = false := rfl

/-- A converted local path never matches the status-check regex. -/
theorem isHttpUrl_fileUrl (p : String) : isHttpUrl (fileUrl p) = false := rfl

/-- C7: with `throwOnHttpError`, a non-2xx response on an http(s) URL fails
with a message containing the numeric status code; without the option the
check never fails; and literal HTML, `file://` URLs, `data:` URLs, and local
paths (resolved to `file://` URLs) never trigger the check. -/
theorem http_status_check_behavior (o : Options) (rest : String) (r : Response) :
    ((o.throwOnHttpError = true) → (o.inputType ≠ "html") → (responseOk r = false) →
      (navigationHttpCheck o ("http://" ++ rest) (some r)
          = some ("HTTP " ++ toString r.status ++ " " ++ r.statusText ++ ": "
              ++ ("http://" ++ rest))
        ∧ navigationHttpCheck o ("https://" ++ rest) (some r)
          = some ("HTTP " ++ toString r.status ++ " " ++ r.statusText ++ ": "
              ++ ("https://" ++ rest))
        ∧ ∃ post, navigationHttpCheck o ("http://" ++ rest) (some r)
            = some ("HTTP " ++ toString r.status ++ post)))
    ∧ (o.throwOnHttpError = false →
        ∀ input resp, navigationHttpCheck o input resp = none)
    ∧ (o.inputType = "html" →
        ∀ input resp, navigationHttpCheck o input resp = none)
    ∧ (∀ resp, navigationHttpCheck o ("file://" ++ rest) resp = none)
    ∧ (∀ resp, navigationHttpCheck o ("data:" ++ rest) resp = none)
    ∧ (∀ input resp, isUrl input = false → navigationHttpCheck o input resp = none) := by
  refine ⟨?_, ?_, ?_, ?_, ?_, ?_⟩
  · intro hth hhtml hok
    have hh : (o.inputType == "html") = false := by
      simp [hhtml]
    refine ⟨?_, ?_, ?_⟩
    · simp [navigationHttpCheck, hh, hth, hok, isUrl_http, isHttpUrl_http]
    · simp [navigationHttpCheck, hh, hth, hok, isUrl_https, isHttpUrl_https]
    · refine ⟨" " ++ r.statusText ++ ": " ++ ("http://" ++ rest), ?_⟩
      simp [navigationHttpCheck, hh, hth, hok, isUrl_http, isHttpUrl_http,
        String.append_assoc]
  · intro hth input resp
    cases resp <;> simp [navigationHttpCheck, hth]
  · intro hhtml input resp
    have hh : (o.inputType == "html") = true := by simp [hhtml]
    cases resp <;> simp [navigationHttpCheck, hh]
  · intro resp
    cases resp <;> cases hh : (o.inputType == "html") <;>
      simp [navigationHttpCheck, hh, isUrl_file, isHttpUrl_file]
  · intro resp
    cases resp <;> cases hh : (o.inputType == "html") <;>
      simp [navigationHttpCheck, hh, isUrl_data, isHttpUrl_data]
  · intro input resp h
    cases resp <;> cases hh : (o.inputType == "html") <;>
      simp [navigationHttpCheck, hh, h, isHttpUrl_fileUrl]

/-- C7 witness: a 404 on `http://example.com` with `throwOnHttpError: true`
produces the error message carrying the status code. -/
theorem http_status_check_behavior_witness :
    navigationHttpCheck { throwOnHttpError := true } ("http://" ++ "example.com")
        (some ⟨404, "Not Found"⟩)
      = some ("HTTP " ++ toString (404 : ℕ) ++ " " ++ "Not Found" ++ ": "
          ++ ("http://" ++ "example.com")) :=
  (((http_status_check_behavior { throwOnHttpError := true } "example.com"
      ⟨404, "Not Found"⟩).1) rfl (by decide) rfl).1

/-- Decoding a 6-bit value's alphabet character gives the value back. -/
theorem b64index_b64char : ∀ n < 64, b64index (b64char n) = some n := by decide

/-- No alphabet character of a 6-bit value is the padding character. -/
theorem b64char_ne_eq : ∀ n < 64, (b64char n == '=') = false := by decide

/-- Base64 round trip on byte lists: decoding the encoding is the identity. -/
theorem b64_roundtrip : ∀ l : List ℕ, (∀ x ∈ l, x < 256) →
    b64decodeChars (b64encodeChars l) = some l
  | [] => fun _ => rfl
  | [a] => fun h => by
    have ha : a < 256 := h a (by simp)
    have h1 : a / 4 < 64 := by omega
    have h2 : a % 4 * 16 < 64 := by omega
    simp only [b64encodeChars, b64decodeChars, b64index_b64char _ h1,
      b64index_b64char _ h2]
    simp
    omega
  | [a, b] => fun h => by
    have ha : a < 256 := h a (by simp)
    have hb : b < 256 := h b (by simp)
    have h1 : a / 4 < 64 := by omega
    have h2 : a % 4 * 16 + b / 16 < 64 := by omega
    have h3 : b % 16 * 4 < 64 := by omega
    simp only [b64encodeChars, b64decodeChars, b64index_b64char _ h1,
      b64index_b64char _ h2, b64index_b64char _ h3, b64char_ne_eq _ h3]
    simp
    constructor <;> omega
  | a :: b :: c :: d :: rest => fun h => by
    have ha : a < 256 := h a (by simp)
    have hb : b < 256 := h b (by simp)
    have hc : c < 256 := h c (by simp)
    have IH := b64_roundtrip (d :: rest) (fun x hx => h x (by simp at hx ⊢; tauto))
    have h1 : a / 4 < 64 := by omega
    have h2 : a % 4 * 16 + b / 16 < 64 := by omega
    have h3 : b % 16 * 4 + c / 64 < 64 := by omega
    have h4 : c % 64 < 64 := by omega
    simp only [b64encodeChars, b64decodeChars, b64index_b64char _ h1,
      b64index_b64char _ h2, b64index_b64char _ h3, b64index_b64char _ h4,
      b64char_ne_eq _ h3, b64char_ne_eq _ h4, IH]
    simp
    refine ⟨by omega, by omega, by omega⟩
  | [a, b, c] => fun h => by
    have ha : a < 256 := h a (by simp)
    have hb : b < 256 := h b (by simp)
    have hc : c < 256 := h c (by simp)
    have h1 : a / 4 < 64 := by omega
    have h2 : a % 4 * 16 + b / 16 < 64 := by omega
    have h3 : b % 16 * 4 + c / 64 < 64 := by omega
    have h4 : c % 64 < 64 := by omega
    simp only [b64encodeChars, b64decodeChars, b64index_b64char _ h1,
      b64index_b64char _ h2, b64index_b64char _ h3, b64index_b64char _ h4,
      b64char_ne_eq _ h3, b64char_ne_eq _ h4]
    simp
    refine ⟨by omega, by omega, by omega⟩

/-- C8: for the same underlying capture bytes, the string returned by
`base64()`, base64-decoded, is byte-identical to the bytes returned by
`buffer()`. -/
theorem base64_decodes_to_buffer (bytes : List ℕ) (h : ∀ x ∈ bytes, x < 256) :
    b64decodeChars (base64Entry bytes).data = some (bufferEntry bytes) :=
  b64_roundtrip bytes h

/-- C8 witness: a concrete four-byte capture. -/
theorem base64_decodes_to_buffer_witness :
    b64decodeChars (base64Entry [72, 105, 33, 255]).data
      = some (bufferEntry [72, 105, 33, 255]) :=
  base64_decodes_to_buffer [72, 105, 33, 255] (by decide)

end CaptureWebsite
